import Mathlib

/-!
Verification development for the TokenLaunch Pro Eliza-Solana SDK
(`src/sdk/src`): a shallow embedding in Lean 4 of the trend-scoring and
action-decision pipeline, its dedup/rate-limit state, reply formatting and
mint validation, with theorems settling the spec's testable properties.

Modelling conventions, used throughout:

* JavaScript strings are modelled as `List Char` (`JSStr`); one element
  stands for one UTF-16 unit.  All lengths and substring operations the
  claims mention act on ASCII content, where units and code points agree.
* JavaScript numbers are modelled as `ℚ` (exact arithmetic; every numeric
  comparison the claims mention has slack well above double rounding).
  `NaN` is not modelled.  Integer counters are `Nat`.
* Timestamps (`Date.now()`, `createdAt.getTime()`) are `ℚ` milliseconds
  passed in as parameters; the local wall-clock hour (`getHours()`) is a
  `Nat` parameter.
* A call to an external collaborator (OpenAI chat completion, Eliza
  runtime, Twitter reply, Solana mint) is modelled by an `Except`-valued
  oracle parameter: `.error` is a thrown error / timeout / non-2xx /
  malformed JSON, `.ok` carries the parsed response with every field
  optional (`Option`), since the callers trust no field's presence.
* JavaScript truthiness in `x || d` defaults: `undefined` is `none`; the
  number `0`, the empty string and `false` are falsy.
-/

set_option autoImplicit false

/-- A JavaScript string: a list of UTF-16 units (`Char` per unit). -/
abbrev JSStr := List Char

/-- A Lean string literal as a `JSStr`. -/
def jstr (s : String) : JSStr := s.toList

/-- JS `String.prototype.includes`: does `pat` occur contiguously in `s`? -/
def strIncludes (pat : JSStr) : JSStr → Bool
  | [] => pat.isEmpty
  | c :: rest => pat.isPrefixOf (c :: rest) || strIncludes pat rest

/-- JS `String.prototype.toLowerCase` (ASCII range, all the code uses). -/
def strToLower (s : JSStr) : JSStr := s.map Char.toLower

/-- `x || d` on an optional JS number: `undefined` and `0` are falsy. -/
def jsOrQ (x : Option ℚ) (d : ℚ) : ℚ :=
  match x with
  | none => d
  | some v => if v = 0 then d else v

/-- `x || d` on an optional JS string: `undefined` and `""` are falsy. -/
def jsOrStr (x : Option JSStr) (d : JSStr) : JSStr :=
  match x with
  | none => d
  | some s => if s.isEmpty then d else s

/-- `Math.max(0, Math.min(1, x))`. -/
def clamp01 (x : ℚ) : ℚ := max 0 (min 1 x)

/-! ## Data model (`src/sdk/src/types.ts`) -/

/-- `TwitterMessage.metrics`. -/
structure TwitterMetrics where
  likes : ℚ
  retweets : ℚ
  replies : ℚ
  views : Option ℚ
deriving DecidableEq

/-- `TwitterMessage` (the canonical message record). -/
structure TwitterMessage where
  id : JSStr
  text : JSStr
  authorId : JSStr
  authorUsername : JSStr
  createdAt : ℚ
  metrics : TwitterMetrics
  hashtags : List JSStr
  mentions : List JSStr
  isReply : Bool
deriving DecidableEq

/-- The sentiment result of `analyzeSentiment` (`{score, label, confidence}`). -/
structure SentimentResult where
  score : ℚ
  label : JSStr
  confidence : ℚ
deriving DecidableEq

/-- The viral-potential result of `analyzeViralPotential` (`{score, factors}`). -/
structure ViralResult where
  score : ℚ
  factors : List JSStr
deriving DecidableEq

/-- A token suggestion `{name, symbol, concept}`. -/
structure TokenSuggestion where
  name : JSStr
  symbol : JSStr
  concept : JSStr
deriving DecidableEq

/-- `TrendAnalysis`. -/
structure TrendAnalysis where
  keywords : List JSStr
  sentiment : SentimentResult
  viralPotential : ViralResult
  tokenSuggestion : Option TokenSuggestion
deriving DecidableEq

/-! ## Scoring Engine (`src/sdk/src/features/SentimentAnalyzer.ts`) -/

/-- The JSON object the sentiment prompt asks the language model for
(`{score, label, confidence}`); each field may be absent. -/
structure SentimentJson where
  score : Option ℚ
  label : Option JSStr
  confidence : Option ℚ
deriving DecidableEq

/-- `analyzeSentiment` (SentimentAnalyzer.ts lines 68-109): on a successful
collaborator call, defaults falsy fields (`result.score || 0.5`,
`result.label || "neutral"`, `result.confidence || 0.5`) and clamps the
numbers into [0,1]; any thrown error (API failure or `JSON.parse` throw)
is caught and yields the neutral fallback. -/
def analyzeSentiment (outcome : Except Unit SentimentJson) : SentimentResult :=
  match outcome with
  | .error _ => { score := 0.5, label := jstr "neutral", confidence := 0.1 }
  | .ok r =>
      { score := clamp01 (jsOrQ r.score 0.5)
        label := jsOrStr r.label (jstr "neutral")
        confidence := clamp01 (jsOrQ r.confidence 0.5) }

/-- One item of a regex character class: a single unit or a range as the
source literal denotes it (code-point values). -/
inductive ClassItem where
  | single (c : Nat)
  | range (lo hi : Nat)
deriving DecidableEq

/-- The character class items of the emoji regex literal at
SentimentAnalyzer.ts line 289, read off the source bytes.  The literal is

  `/[\\u{1F600}-\u{1F64F}]|[\u{1F300}-\\u{1F5FF}]|[\\u{1F680}-\\u{1F6FF}]|[\u{2600}-\u{26FF}]|[\u{2700}-\\u{27BF}]/u`

where `\\` (two bytes) is an escape for the literal backslash U+005C, so
inside a class `\\u{1F600}` denotes the nine units `\ u { 1 F 6 0 0 }`,
not a code point.  The resulting atoms and ranges per alternative:

* alt 1 `[\\u{1F600}-\u{1F64F}]`: singles `\ u { 1 F 6 0`, then the
  range `}` (U+007D) to U+1F64F;
* alt 2 `[\u{1F300}-\\u{1F5FF}]`: the range U+1F300 to `\` (U+005C) —
  REVERSED — then singles `u { 1 F 5 F F }`;
* alt 3 `[\\u{1F680}-\\u{1F6FF}]`: singles `\ u { 1 F 6 8 0`, then the
  range `}` (U+007D) to `\` (U+005C) — REVERSED — then singles
  `u { 1 F 6 F F }`;
* alt 4 `[\u{2600}-\u{26FF}]`: the range U+2600 to U+26FF;
* alt 5 `[\u{2700}-\\u{27BF}]`: the range U+2700 to `\` (U+005C) —
  REVERSED — then singles `u { 2 7 B F }`. -/
def emojiClassItems : List ClassItem :=
  [ .single 0x5C, .single 0x75, .single 0x7B, .single 0x31, .single 0x46,
    .single 0x36, .single 0x30, .range 0x7D 0x1F64F,
    .range 0x1F300 0x5C, .single 0x75, .single 0x7B, .single 0x31,
    .single 0x46, .single 0x35, .single 0x46, .single 0x46, .single 0x7D,
    .single 0x5C, .single 0x75, .single 0x7B, .single 0x31, .single 0x46,
    .single 0x36, .single 0x38, .single 0x30, .range 0x7D 0x5C,
    .single 0x75, .single 0x7B, .single 0x31, .single 0x46, .single 0x36,
    .single 0x46, .single 0x46, .single 0x7D,
    .range 0x2600 0x26FF,
    .range 0x2700 0x5C, .single 0x75, .single 0x7B, .single 0x32,
    .single 0x37, .single 0x42, .single 0x46, .single 0x7D ]

/-- A class item is well formed when a range's bound order is respected:
ECMA-262 makes a reversed range in a character class an early SyntaxError,
so a regex containing one cannot be constructed at all. -/
def classItemWellFormed : ClassItem → Bool
  | .single _ => true
  | .range lo hi => lo ≤ hi

/-- Whether every item of the emoji class parses; three of its ranges are
reversed, so this is `false` and the regex literal of line 289 is refused
by the regex grammar. -/
def emojiClassWellFormed : Bool := emojiClassItems.all classItemWellFormed

/-- Membership of a unit in the emoji character class, as the class would
match if it were constructible. -/
def inEmojiClass (c : Char) : Bool :=
  emojiClassItems.any fun item =>
    match item with
    | .single u => c.toNat = u
    | .range lo hi => lo ≤ c.toNat && c.toNat ≤ hi

/-- The content characteristics record of `analyzeContentCharacteristics`. -/
structure ContentCharacteristics where
  hasEmojis : Bool
  hasHashtags : Bool
  hasMemeKeywords : Bool
  hasCallToAction : Bool
  isQuestion : Bool
deriving DecidableEq

/-- The fixed meme lexicon (SentimentAnalyzer.ts lines 296-300). -/
def memeKeywords : List JSStr :=
  [ jstr "lol", jstr "lmao", jstr "based", jstr "chad", jstr "gigachad",
    jstr "sigma", jstr "wagmi", jstr "ngmi", jstr "diamond hands",
    jstr "paper hands", jstr "moon", jstr "lambo", jstr "hodl", jstr "ape",
    jstr "degen", jstr "gm", jstr "gn", jstr "fren", jstr "pepe",
    jstr "wojak", jstr "cope", jstr "seethe" ]

/-- The call-to-action word list (SentimentAnalyzer.ts line 304). -/
def ctaKeywords : List JSStr :=
  [ jstr "retweet", jstr "share", jstr "follow", jstr "like",
    jstr "comment", jstr "join" ]

/-- `analyzeContentCharacteristics` (lines 279-317).  Evaluating the emoji
regex literal fails (its class has reversed ranges, see
`emojiClassItems`), so the method throws before producing a record; the
`.ok` branch is what the method would return were the class constructible. -/
def analyzeContentCharacteristics (message : TwitterMessage) :
    Except Unit ContentCharacteristics :=
  if emojiClassWellFormed then
    let text := strToLower message.text
    .ok
      { hasEmojis := message.text.any inEmojiClass
        hasHashtags := decide (0 < message.hashtags.length)
        hasMemeKeywords := memeKeywords.any fun k => strIncludes k text
        hasCallToAction := ctaKeywords.any fun k => strIncludes k text
        isQuestion := strIncludes (jstr "?") message.text }
  else
    .error ()

/-- `engagementRate` (line 121): `views ? total / views : 0` — both an
absent and a zero `views` short-circuit to `0`, so the division is never
taken with a zero denominator. -/
def engagementRate (message : TwitterMessage) : ℚ :=
  match message.metrics.views with
  | none => 0
  | some v =>
      if v = 0 then 0
      else (message.metrics.likes + message.metrics.retweets +
            message.metrics.replies) / v

/-- The peak-hour set of `isInTrendingTime` (line 327). -/
def peakHours : List Nat := [6, 7, 8, 9, 12, 13, 19, 20, 21, 22]

/-- `isInTrendingTime` (lines 322-330), over the wall-clock hour. -/
def isInTrendingTime (nowHour : Nat) : Bool := peakHours.contains nowHour

/-- The factor accumulation of `analyzeViralPotential` (lines 127-180),
given a successfully computed content-characteristics record: each fired
contribution appends its explanation string, in evaluation order, and the
sum is clamped to [0,1] at the end. -/
def analyzeViralPotentialBody (now : ℚ) (nowHour : Nat)
    (message : TwitterMessage) (content : ContentCharacteristics) :
    ViralResult :=
  let totalEngagement := message.metrics.likes + message.metrics.retweets +
    message.metrics.replies
  let f1 : List JSStr × ℚ :=
    if 100 < message.metrics.likes then ([jstr "High like count"], 0.3)
    else if 10 < message.metrics.likes then ([jstr "Moderate engagement"], 0.1)
    else ([], 0)
  let f2 : List JSStr × ℚ :=
    if 20 < message.metrics.retweets then ([jstr "Strong retweet activity"], 0.2)
    else ([], 0)
  let f3 : List JSStr × ℚ :=
    if 0.05 < engagementRate message then ([jstr "High engagement rate"], 0.15)
    else ([], 0)
  let f4 : List JSStr × ℚ :=
    if content.hasEmojis then ([jstr "Contains emojis"], 0.1) else ([], 0)
  let f5 : List JSStr × ℚ :=
    if content.hasHashtags then ([jstr "Uses trending hashtags"], 0.15)
    else ([], 0)
  let f6 : List JSStr × ℚ :=
    if content.hasMemeKeywords then ([jstr "Contains meme language"], 0.15)
    else ([], 0)
  let hoursSincePost := (now - message.createdAt) / (1000 * 60 * 60)
  let f7 : List JSStr × ℚ :=
    if hoursSincePost < 2 ∧ 50 < totalEngagement then
      ([jstr "Rapid early engagement"], 0.2)
    else ([], 0)
  let f8 : List JSStr × ℚ :=
    if isInTrendingTime nowHour then ([jstr "Posted during peak hours"], 0.1)
    else ([], 0)
  { score := min 1 (max 0 (f1.2 + f2.2 + f3.2 + f4.2 + f5.2 + f6.2 + f7.2 + f8.2))
    factors := f1.1 ++ f2.1 ++ f3.1 ++ f4.1 ++ f5.1 ++ f6.1 ++ f7.1 ++ f8.1 }

/-- `analyzeViralPotential` (lines 114-186): the try block first computes
the engagement data, then awaits `analyzeContentCharacteristics`; since
that call throws (invalid emoji regex), the catch returns the fixed
error fallback `{score: 0.3, factors: ["Analysis error"]}`. -/
def analyzeViralPotential (now : ℚ) (nowHour : Nat)
    (message : TwitterMessage) : ViralResult :=
  match analyzeContentCharacteristics message with
  | .error _ => { score := 0.3, factors := [jstr "Analysis error"] }
  | .ok content => analyzeViralPotentialBody now nowHour message content

/-- `extractKeywords` (lines 191-222): `result.keywords || []` on success
(an absent field defaults to the empty list), empty on any failure. -/
def extractKeywords (outcome : Except Unit (Option (List JSStr))) :
    List JSStr :=
  match outcome with
  | .error _ => []
  | .ok r => r.getD []

/-- The JSON object the token-suggestion prompt asks for
(`{name, symbol, concept}`), each field possibly absent. -/
structure TokenSuggestionJson where
  name : Option JSStr
  symbol : Option JSStr
  concept : Option JSStr
deriving DecidableEq

/-- Truthiness of an optional JS string (`undefined` and `""` are falsy). -/
def truthyStr (x : Option JSStr) : Bool :=
  match x with
  | none => false
  | some s => !s.isEmpty

/-- `generateTokenSuggestion` (lines 227-274): requires all three fields
truthy, upper-cases the symbol, `none` on any failure or missing field. -/
def generateTokenSuggestion (outcome : Except Unit TokenSuggestionJson) :
    Option TokenSuggestion :=
  match outcome with
  | .error _ => none
  | .ok r =>
      if truthyStr r.name && truthyStr r.symbol && truthyStr r.concept then
        some
          { name := r.name.getD []
            symbol := (r.symbol.getD []).map Char.toUpper
            concept := r.concept.getD [] }
      else none

/-! ## Eliza agent (`ElizaAgent`, decision recommendation) -/

/-- The `actions` sub-object of the structured-analysis JSON, fields
possibly absent. -/
structure ActionsJson where
  createToken : Option Bool
  replyToTweet : Option Bool
  analyzeMore : Option Bool
deriving DecidableEq

/-- The JSON object `getStructuredAnalysis` asks the language model for
(`{confidence, mood, topics, actions}`), fields possibly absent. -/
structure StructuredJson where
  confidence : Option ℚ
  mood : Option JSStr
  topics : Option (List JSStr)
  actions : Option ActionsJson
deriving DecidableEq

/-- The concrete action booleans an Eliza recommendation carries. -/
structure ActionsB where
  createToken : Bool
  replyToTweet : Bool
  analyzeMore : Bool
deriving DecidableEq

/-- The value `getStructuredAnalysis` resolves to. -/
structure StructuredAnalysis where
  confidence : ℚ
  mood : JSStr
  topics : List JSStr
  actions : ActionsB
deriving DecidableEq

/-- `ElizaAgent.getStructuredAnalysis`: clamps and defaults the parsed
fields on success (`analysis.confidence || 0.5` clamped,
`analysis.actions?.createToken || false`, …); its catch returns the
reply-biased default `{confidence: 0.5, actions: {createToken: false,
replyToTweet: true, analyzeMore: false}}`. -/
def getStructuredAnalysis (outcome : Except Unit StructuredJson) :
    StructuredAnalysis :=
  match outcome with
  | .error _ =>
      { confidence := 0.5, mood := jstr "neutral", topics := []
        actions := { createToken := false, replyToTweet := true,
                     analyzeMore := false } }
  | .ok a =>
      { confidence := clamp01 (jsOrQ a.confidence 0.5)
        mood := jsOrStr a.mood (jstr "neutral")
        topics := a.topics.getD []
        actions :=
          { createToken := (a.actions.bind (fun x => x.createToken)).getD false
            replyToTweet := (a.actions.bind (fun x => x.replyToTweet)).getD false
            analyzeMore := (a.actions.bind (fun x => x.analyzeMore)).getD false } }

/-- The `ElizaResponse` fields the orchestrator reads (`text`,
`confidence`, `actions`); the `context` block (personality, mood, topics)
is carried by the source but never read by `processTwitterMessage`, so it
is omitted here.  `actions` is optional because `processMessage`'s own
catch returns a response without an `actions` field. -/
structure ElizaResponseM where
  text : JSStr
  confidence : ℚ
  actions : Option ActionsB
deriving DecidableEq

/-- `ElizaAgent.processMessage`: the Eliza runtime is consulted first
(`runtimeOutcome`: `.ok` carries `elizaResponse.content?.text`); if it
throws, the catch returns the fixed apology with confidence 0.1 and no
`actions`.  Otherwise the structured analysis (which catches its own
errors) supplies confidence and actions, and the text falls back when the
runtime text is falsy. -/
def elizaProcessMessage (runtimeOutcome : Except Unit (Option JSStr))
    (structOutcome : Except Unit StructuredJson) : ElizaResponseM :=
  match runtimeOutcome with
  | .error _ =>
      { text := jstr "Hmm, something went wrong with my analysis. Let me try again! 🤔"
        confidence := 0.1
        actions := none }
  | .ok rtext =>
      let s := getStructuredAnalysis structOutcome
      { text := jsOrStr rtext (jstr "Interesting content! Let me analyze this further.")
        confidence := s.confidence
        actions := some s.actions }

/-- The language-model and Eliza-runtime collaborator outcomes one pipeline
run consumes (one field per external call site). -/
structure Oracles where
  sentiment : Except Unit SentimentJson
  keywords : Except Unit (Option (List JSStr))
  tokenSuggestion : Except Unit TokenSuggestionJson
  elizaRuntime : Except Unit (Option JSStr)
  elizaStruct : Except Unit StructuredJson

/-- `analyzeTrend` (lines 19-63) with its token-suggestion call recorded:
sentiment, viral potential and keywords are computed unconditionally;
`generateTokenSuggestion` is awaited only under the gate
`sentimentResult.score > 0.6 && viralResult.score > 0.5`.  Every inner
call catches its own errors, so the outer catch (the fully neutral
analysis) is unreachable and has no branch here. -/
def analyzeTrendT (o : Oracles) (now : ℚ) (nowHour : Nat)
    (message : TwitterMessage) : TrendAnalysis × Bool :=
  let sentimentResult := analyzeSentiment o.sentiment
  let viralResult := analyzeViralPotential now nowHour message
  let keywords := extractKeywords o.keywords
  let gate := decide (0.6 < sentimentResult.score) &&
    decide (0.5 < viralResult.score)
  let tokenSuggestion :=
    if gate then generateTokenSuggestion o.tokenSuggestion else none
  ({ keywords := keywords
     sentiment := sentimentResult
     viralPotential := viralResult
     tokenSuggestion := tokenSuggestion }, gate)

/-! ## Dedup & Rate Limiter / Action Dispatcher
(`src/sdk/src/features/MessageReplyHandler.ts`) -/

/-- The handler's configuration (`{replyDelay, maxRepliesPerHour}`);
`validateConfig` (utils/helpers.ts) raises at construction unless
`1 ≤ maxRepliesPerHour ≤ 100`. -/
structure ReplyConfig where
  replyDelay : ℚ
  maxRepliesPerHour : Nat
deriving DecidableEq

/-- The handler's mutable fields: `replyHistory` (authorId ↦ last reply
timestamp; modelled as an association list whose first hit wins, matching
`Map.get` after `Map.set`), `hourlyReplyCount` and `lastHourReset`. -/
structure ReplyState where
  replyHistory : List (JSStr × ℚ)
  hourlyReplyCount : Nat
  lastHourReset : ℚ
deriving DecidableEq

/-- `ReplyResult` (types.ts). -/
structure ReplyResult where
  success : Bool
  replyId : Option JSStr
  content : JSStr
  error : Option JSStr
deriving DecidableEq

/-- One hour in milliseconds (`60 * 60 * 1000`). -/
def hourMs : ℚ := 60 * 60 * 1000

/-- `resetHourlyCounter` (lines 161-165). -/
def resetHourlyCounter (now : ℚ) (st : ReplyState) : ReplyState :=
  { st with hourlyReplyCount := 0, lastHourReset := now }

/-- `canReply` (lines 128-135): lazily resets the counter when strictly
more than one hour has passed since `lastHourReset`, then compares the
counter with the configured maximum. -/
def canReply (cfg : ReplyConfig) (now : ℚ) (st : ReplyState) :
    Bool × ReplyState :=
  let st' := if hourMs < now - st.lastHourReset then resetHourlyCounter now st
    else st
  (decide (st'.hourlyReplyCount < cfg.maxRepliesPerHour), st')

/-- `Map.get` on the reply history. -/
def historyGet (h : List (JSStr × ℚ)) (userId : JSStr) : Option ℚ :=
  (h.find? fun p => p.1 == userId).map fun p => p.2

/-- `hasRecentReply` (lines 140-146): `if (!lastReply) return false` —
an absent entry, and also a recorded timestamp of exactly `0` (falsy),
give `false`; otherwise true iff the last reply is less than one hour old. -/
def hasRecentReply (now : ℚ) (st : ReplyState) (userId : JSStr) : Bool :=
  match historyGet st.replyHistory userId with
  | none => false
  | some t => if t = 0 then false else decide (now - t < hourMs)

/-- `updateReplyTracking` (lines 151-156): records the reply timestamp
for the author and increments the hourly counter. -/
def updateReplyTracking (now : ℚ) (userId : JSStr) (st : ReplyState) :
    ReplyState :=
  { st with replyHistory := (userId, now) :: st.replyHistory
            hourlyReplyCount := st.hourlyReplyCount + 1 }

/-- `formatReply` (lines 170-184): prefixes `"@username "` unless the
content already contains the mention `"@username"`, then truncates any
reply longer than 280 units to its first 277 units plus `"..."`. -/
def formatReply (message : TwitterMessage) (content : JSStr) : JSStr :=
  let mention := '@' :: message.authorUsername
  let reply :=
    if strIncludes mention content then content
    else mention ++ [' '] ++ content
  if 280 < reply.length then reply.take 277 ++ jstr "..." else reply

/-- `MessageReplyHandler.replyToTweet` (lines 28-70), with the downstream
`twitterBot.replyToTweet` dispatch as an oracle (`.error` a thrown error
carrying `error.message`, `.ok` the collaborator's `ReplyResult`).  Rate
limit and per-author cooldown are checked first; the reply is formatted
and dispatched; tracking is updated only when the dispatch result reports
`success`. -/
def replyToTweet (cfg : ReplyConfig) (now : ℚ) (message : TwitterMessage)
    (replyContent : JSStr) (dispatch : Except JSStr ReplyResult)
    (st : ReplyState) : ReplyResult × ReplyState :=
  let c := canReply cfg now st
  if !c.1 then
    ({ success := false, replyId := none, content := replyContent
       error := some (jstr "Rate limit exceeded") }, c.2)
  else if hasRecentReply now c.2 message.authorId then
    ({ success := false, replyId := none, content := replyContent
       error := some (jstr "Recent reply to this user") }, c.2)
  else
    match dispatch with
    | .error msg =>
        ({ success := false, replyId := none, content := replyContent
           error := some msg }, c.2)
    | .ok result =>
        (result,
         if result.success then updateReplyTracking now message.authorId c.2
         else c.2)

/-! ## Action Dispatcher, mint side
(`src/sdk/src/features/MemeCoinCreator.ts`) -/

/-- `MemeCoinData.metadata` (types.ts). -/
structure MemeCoinMetadata where
  twitterContext : TwitterMessage
  sentimentScore : ℚ
  viralScore : ℚ
  createdBy : JSStr
  inspiration : JSStr
deriving DecidableEq

/-- `MemeCoinData` (types.ts); `imageUrl` is optional and unused by the
properties below. -/
structure MemeCoinData where
  name : JSStr
  symbol : JSStr
  description : JSStr
  imageUrl : Option JSStr
  metadata : MemeCoinMetadata
deriving DecidableEq

/-- `TokenCreationResult` (types.ts). -/
structure TokenCreationResult where
  success : Bool
  tokenAddress : Option JSStr
  transactionId : Option JSStr
  bondingCurveAddress : Option JSStr
  error : Option JSStr
deriving DecidableEq

/-- The creator's configuration (`{minSentimentScore, maxSupply,
initialLiquidity}`). -/
structure MemeCoinConfig where
  minSentimentScore : ℚ
  maxSupply : ℚ
  initialLiquidity : ℚ
deriving DecidableEq

/-- The fixed denylist of `validateMemeCoinData` (line 110). -/
def bannedWords : List JSStr :=
  [jstr "scam", jstr "rug", jstr "hack", jstr "steal"]

/-- The symbol format `^[A-Z]{3,6}$` (line 102): 3 to 6 units, each an
ASCII capital letter. -/
def symbolFormatOk (s : JSStr) : Bool :=
  decide (3 ≤ s.length) && decide (s.length ≤ 6) &&
    s.all fun c => decide ('A' ≤ c) && decide (c ≤ 'Z')

/-- The lower-cased concatenation `name + " " + description + " " +
twitterContext.text` the denylist is matched against (line 111). -/
def bannedContentSource (data : MemeCoinData) : JSStr :=
  strToLower (data.name ++ [' '] ++ data.description ++ [' '] ++
    data.metadata.twitterContext.text)

/-- The result of `validateMemeCoinData`; the source interpolates the
offending score / word into the error strings, the interpolated tail is
elided here (only presence and the fixed prefix matter). -/
structure ValidationResult where
  isValid : Bool
  error : Option JSStr
deriving DecidableEq

/-- `validateMemeCoinData` (lines 84-123): sentiment threshold, name
length 3-32, symbol format, then the case-insensitive denylist scan, in
that order; first failure wins. -/
def validateMemeCoinData (cfg : MemeCoinConfig) (data : MemeCoinData) :
    ValidationResult :=
  if data.metadata.sentimentScore < cfg.minSentimentScore then
    { isValid := false, error := some (jstr "Sentiment score too low") }
  else if data.name.length < 3 ∨ 32 < data.name.length then
    { isValid := false
      error := some (jstr "Token name must be between 3 and 32 characters") }
  else if !symbolFormatOk data.symbol then
    { isValid := false
      error := some (jstr "Token symbol must be 3-6 uppercase letters") }
  else
    match bannedWords.find? (fun w => strIncludes w (bannedContentSource data)) with
    | some _ => { isValid := false
                  error := some (jstr "Contains banned content") }
    | none => { isValid := true, error := none }

/-- `createToken` (lines 24-79), with
`solanaManager.createTokenWithBondingCurve` as an oracle.  When local
validation fails, a structured `{success: false, error}` is returned and
the collaborator is never called (second component `false`).  Otherwise
the mint is called; a thrown error is caught into `{success: false,
error: error.message}`.  The data sanitisation and metadata-URI assembly
between validation and mint (`sanitizeTokenData`, `createMetadataUri`)
only shape the collaborator's request, cannot throw, and are absorbed
into the oracle outcome. -/
def createToken (cfg : MemeCoinConfig) (data : MemeCoinData)
    (mint : Except JSStr TokenCreationResult) : TokenCreationResult × Bool :=
  let validation := validateMemeCoinData cfg data
  if validation.isValid then
    match mint with
    | .ok result => (result, true)
    | .error msg =>
        ({ success := false, tokenAddress := none, transactionId := none
           bondingCurveAddress := none, error := some msg }, true)
  else
    ({ success := false, tokenAddress := none, transactionId := none
       bondingCurveAddress := none, error := validation.error }, false)

/-! ## Orchestrator / Decision Policy
(`src/sdk/src/core/ElizaSolanaSDK.ts`, `processTwitterMessage`) -/

/-- `AIAnalysis` (types.ts).  The success-path `reasoning` string
interpolates the confidence and sentiment numbers; the interpolated tail
is elided here (only the already-processed branch's fixed string is ever
compared). -/
structure AIAnalysis where
  shouldReply : Bool
  shouldCreateToken : Bool
  replyContent : Option JSStr
  tokenConcept : Option MemeCoinData
  confidence : ℚ
  reasoning : JSStr
deriving DecidableEq

/-- What one `processTwitterMessage` call produces: the returned analysis,
the processed-id set afterwards, and whether any collaborator
(sentiment / keywords / Eliza / token-suggestion) was consulted during
the call. -/
structure ProcessOut where
  analysis : AIAnalysis
  processed : List JSStr
  collaboratorsCalled : Bool
deriving DecidableEq

/-- The fixed decision returned for an already-processed message id
(ElizaSolanaSDK.ts lines 90-95). -/
def alreadyProcessedAnalysis : AIAnalysis :=
  { shouldReply := false, shouldCreateToken := false, replyContent := none
    tokenConcept := none, confidence := 0
    reasoning := jstr "Already processed" }

/-- `processTwitterMessage` (ElizaSolanaSDK.ts lines 87-155).  The
processed-set check runs first, before any collaborator call; otherwise
the trend analysis and the Eliza recommendation are obtained, the action
booleans are read with `elizaResponse.actions?.x || false`, the token
concept is attached when `shouldCreateToken` holds and a suggestion is
present, and the message id is added to the processed set before the
return.  Every callee catches its own collaborator errors (see
`analyzeTrendT`, `elizaProcessMessage`), so this method's catch — the
only path that would skip the `processedTweets.add` — is unreachable. -/
def processTwitterMessage (o : Oracles) (now : ℚ) (nowHour : Nat)
    (username : JSStr) (message : TwitterMessage) (processed : List JSStr) :
    ProcessOut :=
  if message.id ∈ processed then
    { analysis := alreadyProcessedAnalysis, processed := processed
      collaboratorsCalled := false }
  else
    let trendAnalysis := (analyzeTrendT o now nowHour message).1
    let elizaResponse := elizaProcessMessage o.elizaRuntime o.elizaStruct
    let shouldReply :=
      match elizaResponse.actions with
      | none => false
      | some a => a.replyToTweet
    let shouldCreateToken :=
      match elizaResponse.actions with
      | none => false
      | some a => a.createToken
    let base : AIAnalysis :=
      { shouldReply := shouldReply, shouldCreateToken := shouldCreateToken
        replyContent := some elizaResponse.text, tokenConcept := none
        confidence := elizaResponse.confidence
        reasoning := jstr "AI confidence" }
    let analysis :=
      match trendAnalysis.tokenSuggestion with
      | some ts =>
          if shouldCreateToken then
            let concept : MemeCoinData :=
              { name := ts.name, symbol := ts.symbol
                description := ts.concept, imageUrl := none
                metadata :=
                  { twitterContext := message
                    sentimentScore := trendAnalysis.sentiment.score
                    viralScore := trendAnalysis.viralPotential.score
                    createdBy := username
                    inspiration := message.text } }
            { base with tokenConcept := some concept }
          else base
      | none => base
    { analysis := analysis, processed := message.id :: processed
      collaboratorsCalled := true }

/-! ## Concrete fixtures for evaluation -/

/-- The scenario message of spec §8: likes 150, reposts 45, replies 23,
views 2500, one hashtag, meme text with emojis. -/
def scenarioMsg : TwitterMessage :=
  { id := jstr "tweet-1", text := jstr "Diamond hands forever! 💎🙌 #WAGMI"
    authorId := jstr "a1", authorUsername := jstr "memer", createdAt := 0
    metrics := { likes := 150, retweets := 45, replies := 23, views := some 2500 }
    hashtags := [jstr "WAGMI"], mentions := [], isReply := false }

/-- The content-characteristics record the `.ok` branch of
`analyzeContentCharacteristics` would compute for `scenarioMsg`, were the
emoji class constructible. -/
def scenarioContent : ContentCharacteristics :=
  { hasEmojis := scenarioMsg.text.any inEmojiClass
    hasHashtags := decide (0 < scenarioMsg.hashtags.length)
    hasMemeKeywords := memeKeywords.any fun k =>
      strIncludes k (strToLower scenarioMsg.text)
    hasCallToAction := ctaKeywords.any fun k =>
      strIncludes k (strToLower scenarioMsg.text)
    isQuestion := strIncludes (jstr "?") scenarioMsg.text }

/-- A small message with no views, used by witnesses: author id `"a1"`,
username `"bob"`. -/
def plainMsg : TwitterMessage :=
  { id := jstr "tweet-2", text := jstr "gm", authorId := jstr "a1"
    authorUsername := jstr "bob", createdAt := 0
    metrics := { likes := 0, retweets := 0, replies := 0, views := none }
    hashtags := [], mentions := [], isReply := false }

/-- A content record with every characteristic off. -/
def quietContent : ContentCharacteristics :=
  { hasEmojis := false, hasHashtags := false, hasMemeKeywords := false
    hasCallToAction := false, isQuestion := false }

/-- Oracles in which every collaborator call fails. -/
def failOracles : Oracles :=
  { sentiment := .error (), keywords := .error (), tokenSuggestion := .error ()
    elizaRuntime := .error (), elizaStruct := .error () }

/-- A reply configuration with `maxRepliesPerHour = 2`. -/
def rlConfig : ReplyConfig := { replyDelay := 2000, maxRepliesPerHour := 2 }

/-- A limiter state whose hourly counter is full (2 of 2) inside the
current window. -/
def rlStateFull : ReplyState :=
  { replyHistory := [], hourlyReplyCount := 2, lastHourReset := 0 }

/-- A limiter state with a stale window (`lastHourReset = 0`) and a recent
recorded reply to author `"a1"` at t = 3 500 000 ms. -/
def rlStateCooldown : ReplyState :=
  { replyHistory := [(jstr "a1", 3500000)], hourlyReplyCount := 3
    lastHourReset := 0 }

/-- A successful downstream dispatch result. -/
def okDispatch : ReplyResult :=
  { success := true, replyId := some (jstr "r1"), content := jstr "sent"
    error := none }

/-- Reply content of 300 units and no mention of `"bob"`. -/
def longContent : JSStr := List.replicate 300 'a'

/-- The default meme-coin configuration (`minSentimentScore = 0.6`). -/
def mintCfg : MemeCoinConfig :=
  { minSentimentScore := 0.6, maxSupply := 1000000000, initialLiquidity := 1 }

/-- A concept whose symbol `"AB"` is too short for `^[A-Z]{3,6}$`, with a
passing sentiment score. -/
def badSymbolData : MemeCoinData :=
  { name := jstr "Wagmi Coin", symbol := jstr "AB"
    description := jstr "a joyful coin", imageUrl := none
    metadata :=
      { twitterContext := plainMsg, sentimentScore := 0.9, viralScore := 0.8
        createdBy := jstr "bot", inspiration := jstr "gm" } }

/-- The parsed sentiment response reporting a negative score and a
negative confidence. -/
def negSentJson : SentimentJson :=
  { score := some (-1), label := none, confidence := some (-2) }

/-- Whether a dispatch outcome reports success: a returned result with
`success = true`; a thrown error never does. -/
def dispatchReportedSuccess (d : Except JSStr ReplyResult) : Bool :=
  match d with
  | .ok r => r.success
  | .error _ => false

/-- A successful mint collaborator result. -/
def okMint : TokenCreationResult :=
  { success := true, tokenAddress := some (jstr "addr"),
    transactionId := some (jstr "tx"), bondingCurveAddress := none,
    error := none }

/-! ## Shared lemmas -/

theorem clamp01_nonneg (x : ℚ) : 0 ≤ clamp01 x := le_max_left 0 (min 1 x)

theorem clamp01_le_one (x : ℚ) : clamp01 x ≤ 1 :=
  max_le (by norm_num) (min_le_left 1 x)

theorem clamp01_eq_zero_iff (x : ℚ) : clamp01 x = 0 ↔ x ≤ 0 := by
  unfold clamp01
  rw [max_eq_left_iff, min_le_iff]
  constructor
  · rintro (h | h)
    · exact absurd h (by norm_num)
    · exact h
  · exact fun h => Or.inr h

/-- The emoji character class of SentimentAnalyzer.ts line 289 contains a
reversed range, so the regex literal cannot be constructed. -/
theorem emojiClass_invalid : emojiClassWellFormed = false := by decide

theorem notMem_ite_single {α : Type} (a b : α) (c : Prop) [Decidable c]
    (hne : a ≠ b) : a ∉ (if c then [b] else []) := by
  split <;> simp_all

theorem notMem_ite_single2 {α : Type} (a b₁ b₂ : α) (c₁ c₂ : Prop)
    [Decidable c₁] [Decidable c₂] (h1 : a ≠ b₁) (h2 : a ≠ b₂) :
    a ∉ (if c₁ then [b₁] else if c₂ then [b₂] else []) := by
  split
  · simp_all
  · split <;> simp_all

theorem notMem_ite_single_cond {α : Type} (a b : α) (c : Prop) [Decidable c]
    (hc : ¬c) : a ∉ (if c then [b] else []) := by
  rw [if_neg hc]
  simp

/-! ## Claim theorems -/

/-- C1. Calling the Decision Policy (`processTwitterMessage`) twice with
the same message id returns `shouldReply = false`,
`shouldCreateToken = false` and confidence 0 (reasoning
"Already processed") on the second call, regardless of the collaborator
outcomes of either call and of the clock: after any first call the
message id is in the processed set, and the second call returns the
fixed already-processed decision, leaves the set unchanged and consults
no collaborator (the processed-set check runs before any collaborator
call). -/
theorem processTwitterMessage_at_most_once (o₁ o₂ : Oracles) (n₁ n₂ : ℚ)
    (h₁ h₂ : Nat) (u₁ u₂ : JSStr) (message : TwitterMessage)
    (processed : List JSStr) :
    message.id ∈ (processTwitterMessage o₁ n₁ h₁ u₁ message processed).processed ∧
    processTwitterMessage o₂ n₂ h₂ u₂ message
        (processTwitterMessage o₁ n₁ h₁ u₁ message processed).processed =
      { analysis := alreadyProcessedAnalysis
        processed := (processTwitterMessage o₁ n₁ h₁ u₁ message processed).processed
        collaboratorsCalled := false } := by
  by_cases hm : message.id ∈ processed
  · have hp : (processTwitterMessage o₁ n₁ h₁ u₁ message processed).processed =
        processed := by
      simp [processTwitterMessage, hm]
    rw [hp]
    exact ⟨hm, by simp [processTwitterMessage, hm]⟩
  · have hp : (processTwitterMessage o₁ n₁ h₁ u₁ message processed).processed =
        message.id :: processed := by
      simp [processTwitterMessage, hm]
    rw [hp]
    refine ⟨List.mem_cons_self _ _, ?_⟩
    simp [processTwitterMessage]

/-- C2. In `analyzeTrend`, whenever the policy gate
`sentiment.score > 0.6 AND viral.score > 0.5` fails, the returned
`TrendAnalysis` carries no token suggestion and the language-model call
for concept generation is not made (second component of `analyzeTrendT`,
the call flag, is `false`); hence a token suggestion is present only if
the gate holds. -/
theorem analyzeTrend_token_gate (o : Oracles) (now : ℚ) (nowHour : Nat)
    (message : TwitterMessage)
    (h : ¬(0.6 < (analyzeTrendT o now nowHour message).1.sentiment.score ∧
           0.5 < (analyzeTrendT o now nowHour message).1.viralPotential.score)) :
    (analyzeTrendT o now nowHour message).1.tokenSuggestion = none ∧
    (analyzeTrendT o now nowHour message).2 = false := by
  have hg : (decide (0.6 < (analyzeSentiment o.sentiment).score) &&
      decide (0.5 < (analyzeViralPotential now nowHour message).score)) = false := by
    by_cases h1 : 0.6 < (analyzeSentiment o.sentiment).score
    · have h2 : ¬ 0.5 < (analyzeViralPotential now nowHour message).score :=
        fun h2 => h ⟨h1, h2⟩
      simp [h2]
    · simp [h1]
  constructor
  · show (if (decide (0.6 < (analyzeSentiment o.sentiment).score) &&
        decide (0.5 < (analyzeViralPotential now nowHour message).score)) = true
      then generateTokenSuggestion o.tokenSuggestion else none) = none
    rw [hg]
    simp
  · show (decide (0.6 < (analyzeSentiment o.sentiment).score) &&
      decide (0.5 < (analyzeViralPotential now nowHour message).score)) = false
    exact hg

/-- Witness for C2 at a concrete input: with every collaborator failing,
the sentiment score is the neutral 0.5, the gate fails, and no token
suggestion is produced nor the concept-generation call made. -/
theorem analyzeTrend_token_gate_witness :
    (analyzeTrendT failOracles 0 0 plainMsg).1.tokenSuggestion = none ∧
    (analyzeTrendT failOracles 0 0 plainMsg).2 = false :=
  analyzeTrend_token_gate failOracles 0 0 plainMsg (by
    intro hc
    have hs : (analyzeTrendT failOracles 0 0 plainMsg).1.sentiment.score = 0.5 :=
      rfl
    rw [hs] at hc
    exact absurd hc.1 (by norm_num))

/-- C3. `canReply` returns true iff the (lazily reset) hourly count is
strictly below `maxRepliesPerHour`: recording a reply increments the
counter by one; within the window, once the counter has reached the
maximum the next attempt sees `false`; and once strictly more than one
hour has elapsed since the window start the counter is reset to 0 on the
next call, so with a positive configured maximum `canReply` is `true`
again. -/
theorem canReply_rate_limit (cfg : ReplyConfig) (now : ℚ) (st : ReplyState)
    (userId : JSStr) :
    ((canReply cfg now st).1 = true ↔
      (if hourMs < now - st.lastHourReset then 0 else st.hourlyReplyCount) <
        cfg.maxRepliesPerHour) ∧
    (updateReplyTracking now userId st).hourlyReplyCount =
      st.hourlyReplyCount + 1 ∧
    (now - st.lastHourReset ≤ hourMs → cfg.maxRepliesPerHour ≤ st.hourlyReplyCount →
      (canReply cfg now st).1 = false) ∧
    (hourMs < now - st.lastHourReset → 0 < cfg.maxRepliesPerHour →
      (canReply cfg now st).1 = true ∧
      (canReply cfg now st).2.hourlyReplyCount = 0) := by
  by_cases hr : hourMs < now - st.lastHourReset
  · refine ⟨?_, rfl, ?_, ?_⟩
    · simp [canReply, resetHourlyCounter, hr]
    · intro hle _
      exact absurd hr (not_lt.mpr hle)
    · intro _ hpos
      constructor
      · simp [canReply, resetHourlyCounter, hr, hpos]
      · simp [canReply, resetHourlyCounter, hr]
  · refine ⟨?_, rfl, ?_, ?_⟩
    · simp [canReply, hr]
    · intro _ hge
      simp [canReply, hr, not_lt.mpr hge]
    · intro hlt _
      exact absurd hlt hr

/-- Witness for C3 at concrete inputs: with `maxRepliesPerHour = 2` and a
full counter, `canReply` is `false` inside the window and `true` again
once more than an hour has passed. -/
theorem canReply_rate_limit_witness :
    (canReply rlConfig 1000 rlStateFull).1 = false ∧
    (canReply rlConfig 3700000 rlStateFull).1 = true :=
  ⟨(canReply_rate_limit rlConfig 1000 rlStateFull (jstr "a1")).2.2.1
      (by norm_num [rlStateFull, hourMs]) (by norm_num [rlConfig, rlStateFull]),
    ((canReply_rate_limit rlConfig 3700000 rlStateFull (jstr "a1")).2.2.2
      (by norm_num [rlStateFull, hourMs]) (by norm_num [rlConfig])).1⟩

/-- Counterexample to C4 as stated: on a recently-replied failure path the
rate-limiter state is NOT always left unchanged — here the lazy hourly
reset inside the `canReply` check zeroes a counter of 3, although the
reply is rejected for the per-author cooldown and no dispatch succeeds. -/
theorem replyToTweet_reset_counterexample :
    (replyToTweet rlConfig 3700000 plainMsg (jstr "hi") (Except.ok okDispatch)
      rlStateCooldown).1.success = false ∧
    (replyToTweet rlConfig 3700000 plainMsg (jstr "hi") (Except.ok okDispatch)
      rlStateCooldown).2.hourlyReplyCount ≠ rlStateCooldown.hourlyReplyCount := by
  constructor
  · with_unfolding_all rfl
  · have h2 : (replyToTweet rlConfig 3700000 plainMsg (jstr "hi")
        (Except.ok okDispatch) rlStateCooldown).2.hourlyReplyCount = 0 := by
      with_unfolding_all rfl
    rw [h2]
    decide

/-- C4 (amended). `replyToTweet` records a reply — a `replyHistory` entry
and a counter increment — only when the downstream dispatch reports
success: on a rate-limited, recently-replied, thrown or failed dispatch
the call returns `success = false`, `replyHistory` is unchanged, and the
hourly counter is never incremented (it is either unchanged or zeroed by
the lazy hourly reset inside the `canReply` check), so a failed dispatch
never consumes rate-limit budget. -/
theorem replyToTweet_no_record_without_success (cfg : ReplyConfig) (now : ℚ)
    (message : TwitterMessage) (content : JSStr)
    (dispatch : Except JSStr ReplyResult) (st : ReplyState)
    (h : dispatchReportedSuccess dispatch = false) :
    (replyToTweet cfg now message content dispatch st).1.success = false ∧
    (replyToTweet cfg now message content dispatch st).2.replyHistory =
      st.replyHistory ∧
    ((replyToTweet cfg now message content dispatch st).2.hourlyReplyCount =
        st.hourlyReplyCount ∨
      ((replyToTweet cfg now message content dispatch st).2.hourlyReplyCount = 0 ∧
       (replyToTweet cfg now message content dispatch st).2.lastHourReset =
         now)) := by
  have hc2 : ((canReply cfg now st).2.replyHistory = st.replyHistory) ∧
      ((canReply cfg now st).2.hourlyReplyCount = st.hourlyReplyCount ∨
        ((canReply cfg now st).2.hourlyReplyCount = 0 ∧
         (canReply cfg now st).2.lastHourReset = now)) := by
    unfold canReply resetHourlyCounter
    split <;> simp
  simp only [replyToTweet]
  split_ifs with hb1 hb2
  · exact ⟨rfl, hc2.1, hc2.2⟩
  · exact ⟨rfl, hc2.1, hc2.2⟩
  · cases dispatch with
    | error e => exact ⟨rfl, hc2.1, hc2.2⟩
    | ok r =>
        have hrs : r.success = false := h
        simp only [hrs]
        simp only [Bool.false_eq_true, if_false]
        exact ⟨trivial, hc2.1, hc2.2⟩

/-- Witness for C4 (amended) at a concrete input: a thrown dispatch leaves
the reply history unchanged. -/
theorem replyToTweet_no_record_witness :
    (replyToTweet rlConfig 1000 plainMsg (jstr "hi")
      (Except.error (jstr "boom")) rlStateFull).2.replyHistory =
      rlStateFull.replyHistory :=
  (replyToTweet_no_record_without_success rlConfig 1000 plainMsg (jstr "hi")
    (Except.error (jstr "boom")) rlStateFull rfl).2.1

/-- C5. For every collaborator behaviour, `analyzeSentiment` returns a
score and confidence inside [0,1] (out-of-range collaborator values are
clamped), and every collaborator failure yields exactly the neutral
fallback `{score: 0.5, label: "neutral", confidence: 0.1}` instead of
propagating the error. -/
theorem analyzeSentiment_bounds_and_fallback (outcome : Except Unit SentimentJson) :
    0 ≤ (analyzeSentiment outcome).score ∧ (analyzeSentiment outcome).score ≤ 1 ∧
    0 ≤ (analyzeSentiment outcome).confidence ∧
    (analyzeSentiment outcome).confidence ≤ 1 ∧
    analyzeSentiment (Except.error ()) =
      { score := 0.5, label := jstr "neutral", confidence := 0.1 } := by
  cases outcome with
  | error e =>
      refine ⟨?_, ?_, ?_, ?_, rfl⟩ <;> norm_num [analyzeSentiment]
  | ok r =>
      exact ⟨clamp01_nonneg _, clamp01_le_one _, clamp01_nonneg _,
        clamp01_le_one _, rfl⟩

/-- C6 (code defect). The emoji regex literal of
`analyzeContentCharacteristics` is invalid (reversed character-class
ranges caused by over-escaped `\\u{...}` sequences), so for the §8
scenario message — 150 likes, 45 retweets, 23 replies, 2500 views, meme
text with emojis and a hashtag — `analyzeViralPotential` does not return
the documented factors at all: it falls back to
`{score: 0.3, factors: ["Analysis error"]}` and "High like count" never
appears.  Had the content analysis been constructible, the additive
point system (`analyzeViralPotentialBody` on the record the `.ok` branch
would compute) yields exactly the factors the claim lists — including
"High like count", "Strong retweet activity", "Contains emojis" and
"Uses trending hashtags" — with a clamped score of at least 0.75 even
with both timing factors off, and never above 1. -/
theorem viral_scenario_emoji_regex_defect :
    emojiClassWellFormed = false ∧
    analyzeViralPotential 0 0 scenarioMsg =
      { score := 0.3, factors := [jstr "Analysis error"] } ∧
    jstr "High like count" ∉ (analyzeViralPotential 0 0 scenarioMsg).factors ∧
    analyzeViralPotentialBody 0 0 scenarioMsg scenarioContent =
      { score := 1
        factors := [jstr "High like count", jstr "Strong retweet activity",
          jstr "High engagement rate", jstr "Contains emojis",
          jstr "Uses trending hashtags", jstr "Contains meme language",
          jstr "Rapid early engagement"] } ∧
    jstr "High like count" ∈
      (analyzeViralPotentialBody 0 0 scenarioMsg scenarioContent).factors ∧
    jstr "Strong retweet activity" ∈
      (analyzeViralPotentialBody 0 0 scenarioMsg scenarioContent).factors ∧
    jstr "Contains emojis" ∈
      (analyzeViralPotentialBody 0 0 scenarioMsg scenarioContent).factors ∧
    jstr "Uses trending hashtags" ∈
      (analyzeViralPotentialBody 0 0 scenarioMsg scenarioContent).factors ∧
    0.75 ≤ (analyzeViralPotentialBody 10000000000 0 scenarioMsg
      scenarioContent).score ∧
    (analyzeViralPotentialBody 0 0 scenarioMsg scenarioContent).score ≤ 1 := by
  have h0 : analyzeViralPotentialBody 0 0 scenarioMsg scenarioContent =
      { score := 1
        factors := [jstr "High like count", jstr "Strong retweet activity",
          jstr "High engagement rate", jstr "Contains emojis",
          jstr "Uses trending hashtags", jstr "Contains meme language",
          jstr "Rapid early engagement"] } := by
    with_unfolding_all rfl
  have hfar : (analyzeViralPotentialBody 10000000000 0 scenarioMsg
      scenarioContent).score = 1 := by
    with_unfolding_all rfl
  have hmain : (analyzeViralPotential 0 0 scenarioMsg).factors =
      [jstr "Analysis error"] := rfl
  refine ⟨by decide, rfl, ?_, h0, ?_, ?_, ?_, ?_, ?_, ?_⟩
  · rw [hmain]
    decide
  · rw [h0]
    decide
  · rw [h0]
    decide
  · rw [h0]
    decide
  · rw [h0]
    decide
  · rw [hfar]
    norm_num
  · rw [h0]

/-- C7. In `formatReply`, `reply` being the content after the mention
step (prefixed with `"@username "` exactly when the content does not
already contain `"@username"`), a reply longer than 280 units is
truncated to its first 277 units plus the 3-unit "..." marker — exactly
280 units — and a reply of at most 280 units passes through
untruncated. -/
theorem formatReply_spec (message : TwitterMessage) (content reply : JSStr)
    (hreply : reply = if strIncludes ('@' :: message.authorUsername) content
      then content else ('@' :: message.authorUsername) ++ [' '] ++ content) :
    (280 < reply.length →
      formatReply message content = reply.take 277 ++ jstr "..." ∧
      (formatReply message content).length = 280) ∧
    (reply.length ≤ 280 → formatReply message content = reply) := by
  subst hreply
  simp only [formatReply]
  constructor
  · intro hlong
    rw [if_pos hlong]
    refine ⟨rfl, ?_⟩
    rw [List.length_append, List.length_take]
    have h3 : (jstr "...").length = 3 := rfl
    rw [h3]
    omega
  · intro hshort
    rw [if_neg (not_lt.mpr hshort)]

set_option maxRecDepth 8000 in
/-- Witness for C7 at a concrete input: 300 units of content with no
mention of the author format to exactly 280 units. -/
theorem formatReply_spec_witness :
    (formatReply plainMsg longContent).length = 280 :=
  ((formatReply_spec plainMsg longContent _ rfl).1 (by decide)).2

/-- C8. For every concept passing the configured minimum-sentiment
precondition, a local validation failure — name length outside 3-32,
symbol not matching `^[A-Z]{3,6}$`, or a banned word (case-insensitively)
in the concatenated name + description + source text — makes
`createToken` return a structured `{success: false, error}` without ever
calling the mint collaborator; and the symbol format rejects `"AB"` while
accepting `"WAGMI"`. -/
theorem createToken_validation_gate (cfg : MemeCoinConfig) (data : MemeCoinData)
    (mint : Except JSStr TokenCreationResult)
    (hsent : cfg.minSentimentScore ≤ data.metadata.sentimentScore)
    (hbad : data.name.length < 3 ∨ 32 < data.name.length ∨
      symbolFormatOk data.symbol = false ∨
      (bannedWords.any fun w => strIncludes w (bannedContentSource data)) = true) :
    (createToken cfg data mint).1.success = false ∧
    (createToken cfg data mint).1.error.isSome = true ∧
    (createToken cfg data mint).2 = false ∧
    symbolFormatOk (jstr "AB") = false ∧ symbolFormatOk (jstr "WAGMI") = true := by
  have hv : (validateMemeCoinData cfg data).isValid = false ∧
      (validateMemeCoinData cfg data).error.isSome = true := by
    unfold validateMemeCoinData
    rw [if_neg (not_lt.mpr hsent)]
    by_cases hname : data.name.length < 3 ∨ 32 < data.name.length
    · rw [if_pos hname]
      exact ⟨rfl, rfl⟩
    · rw [if_neg hname]
      by_cases hsym : symbolFormatOk data.symbol
      · rw [if_neg (by simp [hsym])]
        have hb : (bannedWords.any fun w =>
            strIncludes w (bannedContentSource data)) = true := by
          rcases hbad with hb | hb | hb | hb
          · exact absurd (Or.inl hb) hname
          · exact absurd (Or.inr hb) hname
          · rw [hsym] at hb
            exact absurd hb (by simp)
          · exact hb
        rcases hf : bannedWords.find? (fun w =>
            strIncludes w (bannedContentSource data)) with _ | w
        · exfalso
          rw [List.find?_eq_none] at hf
          rw [List.any_eq_true] at hb
          rcases hb with ⟨w, hw, hpw⟩
          exact hf w hw hpw
        · simp only [hf]
          constructor <;> simp
      · rw [if_pos (by simp [hsym])]
        exact ⟨rfl, rfl⟩
  have hcall : createToken cfg data mint =
      ({ success := false, tokenAddress := none, transactionId := none
         bondingCurveAddress := none,
         error := (validateMemeCoinData cfg data).error }, false) := by
    simp only [createToken]
    rw [hv.1]
    simp
  rw [hcall]
  exact ⟨rfl, hv.2, rfl, by decide, by decide⟩

/-- Witness for C8 at a concrete input: a concept with symbol `"AB"` and
passing sentiment is rejected without calling the mint collaborator. -/
theorem createToken_validation_gate_witness :
    (createToken mintCfg badSymbolData (Except.ok okMint)).2 = false ∧
    (createToken mintCfg badSymbolData (Except.ok okMint)).1.success = false :=
  ⟨(createToken_validation_gate mintCfg badSymbolData (Except.ok okMint)
      (by norm_num [mintCfg, badSymbolData])
      (Or.inr (Or.inr (Or.inl (by decide))))).2.2.1,
   (createToken_validation_gate mintCfg badSymbolData (Except.ok okMint)
      (by norm_num [mintCfg, badSymbolData])
      (Or.inr (Or.inr (Or.inl (by decide))))).1⟩

/-- C9. For every message whose `views` is absent or 0, the engagement
rate is taken to be 0 (the division is short-circuited, never taken with
a zero denominator), and the "High engagement rate" (+0.15) contribution
never fires: not in the factors of `analyzeViralPotential`, and not in
the factors of the additive point system for any content
characteristics. -/
theorem viral_zero_views_safe (now : ℚ) (nowHour : Nat) (message : TwitterMessage)
    (h : message.metrics.views = none ∨ message.metrics.views = some 0) :
    engagementRate message = 0 ∧
    jstr "High engagement rate" ∉
      (analyzeViralPotential now nowHour message).factors ∧
    ∀ content : ContentCharacteristics,
      jstr "High engagement rate" ∉
        (analyzeViralPotentialBody now nowHour message content).factors := by
  have her : engagementRate message = 0 := by
    rcases h with h | h <;> simp [engagementRate, h]
  refine ⟨her, ?_, ?_⟩
  · have hfac : (analyzeViralPotential now nowHour message).factors =
        [jstr "Analysis error"] := by
      unfold analyzeViralPotential analyzeContentCharacteristics
      rw [emojiClass_invalid]
      simp
    rw [hfac]
    decide
  · intro content
    have h5 : ¬((0.05 : ℚ) < engagementRate message) := by
      rw [her]
      norm_num
    simp only [analyzeViralPotentialBody, List.mem_append, not_or, and_assoc,
      apply_ite (Prod.fst (α := List JSStr) (β := ℚ))]
    refine ⟨?_, ?_, ?_, ?_, ?_, ?_, ?_, ?_⟩
    · exact notMem_ite_single2 _ _ _ _ _ (by decide) (by decide)
    · exact notMem_ite_single _ _ _ (by decide)
    · exact notMem_ite_single_cond _ _ _ h5
    · exact notMem_ite_single _ _ _ (by decide)
    · exact notMem_ite_single _ _ _ (by decide)
    · exact notMem_ite_single _ _ _ (by decide)
    · exact notMem_ite_single _ _ _ (by decide)
    · exact notMem_ite_single _ _ _ (by decide)

/-- Witness for C9 at a concrete input: a message with absent views has
engagement rate 0 and no engagement-rate factor. -/
theorem viral_zero_views_witness :
    engagementRate plainMsg = 0 ∧
    jstr "High engagement rate" ∉
      (analyzeViralPotentialBody 0 0 plainMsg quietContent).factors :=
  ⟨(viral_zero_views_safe 0 0 plainMsg (Or.inl rfl)).1,
   (viral_zero_views_safe 0 0 plainMsg (Or.inl rfl)).2.2 quietContent⟩

/-- Counterexample to C10 as stated: a successful collaborator call
reporting a strictly negative score (here -1) is NOT mapped to 0.5 — the
`|| 0.5` default only catches falsy values — and the clamp sends it to
exactly 0, so `analyzeSentiment` can return score 0 (and likewise
confidence 0) on the success path. -/
theorem analyzeSentiment_zero_on_negative :
    (analyzeSentiment (.ok negSentJson)).score = 0 ∧
    (analyzeSentiment (.ok negSentJson)).confidence = 0 := by
  constructor <;> rfl

/-- C10 (amended). On a successful collaborator call, an absent or
exactly-zero reported score (falsy under `|| 0.5`) is substituted by 0.5
before clamping, and likewise for confidence; consequently the returned
score (resp. confidence) is 0 exactly when the collaborator reported a
strictly negative value, which the clamp maps to 0. -/
theorem analyzeSentiment_falsy_defaults (j : SentimentJson) :
    (analyzeSentiment (.ok { j with score := none })).score = 0.5 ∧
    (analyzeSentiment (.ok { j with score := some 0 })).score = 0.5 ∧
    ((analyzeSentiment (.ok j)).score = 0 ↔ ∃ v, j.score = some v ∧ v < 0) ∧
    (analyzeSentiment (.ok { j with confidence := none })).confidence = 0.5 ∧
    (analyzeSentiment (.ok { j with confidence := some 0 })).confidence = 0.5 ∧
    ((analyzeSentiment (.ok j)).confidence = 0 ↔
      ∃ v, j.confidence = some v ∧ v < 0) := by
  have hscore : (analyzeSentiment (.ok j)).score = clamp01 (jsOrQ j.score 0.5) :=
    rfl
  have hconf : (analyzeSentiment (.ok j)).confidence =
      clamp01 (jsOrQ j.confidence 0.5) := rfl
  have key : ∀ x : Option ℚ,
      (clamp01 (jsOrQ x 0.5) = 0 ↔ ∃ v, x = some v ∧ v < 0) := by
    intro x
    rw [clamp01_eq_zero_iff]
    cases x with
    | none =>
        simp [jsOrQ]
        norm_num
    | some v =>
        by_cases hv : v = 0
        · subst hv
          simp [jsOrQ]
          norm_num
        · simp only [jsOrQ, if_neg hv]
          constructor
          · intro h
            exact ⟨v, rfl, lt_of_le_of_ne h hv⟩
          · rintro ⟨w, hw, hlt⟩
            cases hw
            exact le_of_lt hlt
  refine ⟨?_, ?_, ?_, ?_, ?_, ?_⟩
  · norm_num [analyzeSentiment, jsOrQ, clamp01]
  · norm_num [analyzeSentiment, jsOrQ, clamp01]
  · rw [hscore]
    exact key j.score
  · norm_num [analyzeSentiment, jsOrQ, clamp01]
  · norm_num [analyzeSentiment, jsOrQ, clamp01]
  · rw [hconf]
    exact key j.confidence
